import Mathlib

/-!
Shallow embedding of the eCredit loan app's row-level authorization layer.

The data model follows `src/database-schema.sql` (tables `profiles`, `loans`,
`payments`) together with the columns added by `src/final-admin-fix.sql`
(`profiles.is_admin`, `profiles.email`).  Identities (`auth.uid()`) are
modelled as natural numbers; nullable SQL columns become `Option` fields.

The row-level-security policies are embedded one definition per policy,
named after the `CREATE POLICY` names in the three layered scripts:
`src/fix-infinite-recursion.sql`, `src/final-admin-fix.sql`, and the simple
policy fix (`src/unnamed/part_008`).  The client-side handlers embedded here
come from `src/components/Account.tsx`.
-/

/-- A row of the `profiles` table (`database-schema.sql` plus the
`is_admin BOOLEAN DEFAULT FALSE` and `email TEXT` columns added by
`final-admin-fix.sql`).  `is_admin` is a nullable boolean column. -/
structure Profile where
  id : Nat
  email : Option String
  full_name : Option String
  phone : Option String
  avatar_url : Option String
  credit_score : Int
  loan_limit : Int
  is_admin : Option Bool
  created_at : Nat
  updated_at : Nat
deriving DecidableEq, Repr

/-- The `loans.status` TEXT column is constrained by the schema CHECK to the
five enum values, so we embed it as a five-constructor type. -/
inductive LoanStatus where
  | pending
  | approved
  | rejected
  | active
  | completed
deriving DecidableEq, Repr

/-- A row of the `loans` table (`database-schema.sql`). -/
structure Loan where
  id : Nat
  user_id : Nat
  amount : Int
  interest_rate : Int
  term_months : Nat
  monthly_payment : Int
  status : LoanStatus
  approval_date : Option Nat
  disbursement_date : Option Nat
deriving DecidableEq, Repr

/-- A row of the `payments` table (`database-schema.sql`). -/
structure Payment where
  id : Nat
  loan_id : Nat
  amount : Int
deriving DecidableEq, Repr

/-- The relational store: the three collections the claims range over. -/
structure Store where
  profiles : List Profile
  loans : List Loan
  payments : List Payment
deriving DecidableEq, Repr

/-- The single `SELECT ... FROM profiles WHERE id = user_id` read used by the
admin resolver; `profiles.id` is the primary key, so at most one row matches. -/
def lookupProfile (s : Store) (u : Nat) : Option Profile :=
  s.profiles.find? (fun p => p.id == u)

/-- `is_admin_user` from `fix-infinite-recursion.sql` (SECURITY DEFINER, so it
reads the profiles table directly, bypassing row-level security):
`SELECT COALESCE(is_admin, FALSE) INTO admin_status FROM profiles WHERE id =
user_id; RETURN COALESCE(admin_status, FALSE)`.  When no row matches,
`admin_status` stays NULL and the outer COALESCE yields FALSE. -/
def is_admin_user (s : Store) (u : Nat) : Bool :=
  match lookupProfile s u with
  | none => false
  | some p => p.is_admin.getD false

/-- Instrumented variant of `is_admin_user`: the second component counts the
Profile-store lookups performed (the function body issues exactly the one
`SELECT` of `lookupProfile`). -/
def is_admin_userCounted (s : Store) (u : Nat) : Bool × Nat :=
  let r := (lookupProfile s u, 1)
  ((r.1.map (fun p => p.is_admin.getD false)).getD false, r.2)

/-- `profiles_select_policy` from `fix-infinite-recursion.sql`:
`USING (auth.uid() = id OR is_admin_user(auth.uid()))`. -/
def profiles_select_policy (s : Store) (caller : Nat) (p : Profile) : Bool :=
  (caller == p.id) || is_admin_user s caller

/-- `profiles_update_policy` from `fix-infinite-recursion.sql`:
`USING (auth.uid() = id OR is_admin_user(auth.uid()))`; the policy has no
`WITH CHECK` clause and no column-level restriction on the new row. -/
def profiles_update_policy (s : Store) (caller : Nat) (p : Profile) : Bool :=
  (caller == p.id) || is_admin_user s caller

/-- `profiles_insert_policy` from `fix-infinite-recursion.sql`:
`WITH CHECK (auth.uid() = id OR is_admin_user(auth.uid()))`. -/
def profiles_insert_policy (s : Store) (caller : Nat) (p : Profile) : Bool :=
  (caller == p.id) || is_admin_user s caller

/-- `profiles_select_all` from `final-admin-fix.sql`:
`FOR SELECT TO authenticated USING (true)` — any authenticated caller may
read any profile row. -/
def profiles_select_all (_s : Store) (_caller : Nat) (_p : Profile) : Bool :=
  true

/-- `profiles_select_all_auth` from the simple policy fix
(`src/unnamed/part_008`): `FOR SELECT TO authenticated USING (true)`. -/
def profiles_select_all_auth (_s : Store) (_caller : Nat) (_p : Profile) : Bool :=
  true

/-- `profiles_update_own` from `final-admin-fix.sql` and the simple policy
fix: `FOR UPDATE TO authenticated USING (auth.uid() = id)`. -/
def profiles_update_own (caller : Nat) (p : Profile) : Bool :=
  caller == p.id

/-- `loans_update_policy` from `fix-infinite-recursion.sql`:
`USING (user_id = auth.uid() OR is_admin_user(auth.uid()))`; no `WITH CHECK`
and no restriction tied to the `status` column. -/
def loans_update_policy (s : Store) (caller : Nat) (l : Loan) : Bool :=
  (l.user_id == caller) || is_admin_user s caller

/-- `loans_update_own` from `final-admin-fix.sql` and the simple policy fix:
`FOR UPDATE TO authenticated USING (user_id = auth.uid())`. -/
def loans_update_own (caller : Nat) (l : Loan) : Bool :=
  l.user_id == caller

/-- `payments_insert_policy` from `fix-infinite-recursion.sql`:
`WITH CHECK (is_admin_user(auth.uid()))`. -/
def payments_insert_policy (s : Store) (caller : Nat) (_r : Payment) : Bool :=
  is_admin_user s caller

/-- `payments_insert_all` from `final-admin-fix.sql`:
`FOR INSERT TO authenticated WITH CHECK (true)`. -/
def payments_insert_all (_s : Store) (_caller : Nat) (_r : Payment) : Bool :=
  true

/-- `payments_insert_admin` from the simple policy fix
(`src/unnamed/part_008`): despite the name, its check is
`FOR INSERT TO authenticated WITH CHECK (true)`. -/
def payments_insert_admin (_s : Store) (_caller : Nat) (_r : Payment) : Bool :=
  true

/-- The schema CHECK constraint on `loans.status`
(`database-schema.sql` line 24): `CHECK (status IN ('pending', 'approved',
'rejected', 'active', 'completed'))`, evaluated on the stored TEXT value. -/
def loans_status_check (st : String) : Bool :=
  st == "pending" || st == "approved" || st == "rejected" ||
    st == "active" || st == "completed"

/-- The TEXT value stored for each `LoanStatus` constructor. -/
def statusText : LoanStatus → String
  | .pending => "pending"
  | .approved => "approved"
  | .rejected => "rejected"
  | .active => "active"
  | .completed => "completed"

/-- The four admin actions of `handleLoanAction` in
`src/components/Account.tsx`. -/
inductive LoanAction where
  | approve
  | reject
  | disburse
  | complete
deriving DecidableEq, Repr

/-- The status written by `handleLoanAction`'s `switch (action)`:
approve ↦ approved, reject ↦ rejected, disburse ↦ active,
complete ↦ completed. -/
def actionStatus : LoanAction → LoanStatus
  | .approve => .approved
  | .reject => .rejected
  | .disburse => .active
  | .complete => .completed

/-- The row update performed by `handleLoanAction` on the matched loan:
`updateData` always sets `approval_date`, sets `status` per the action, and
additionally sets `disbursement_date` for `disburse`.  No current-status
precondition appears in the handler. -/
def handleLoanActionUpdate (now : Nat) (a : LoanAction) (l : Loan) : Loan :=
  let l0 : Loan := { l with approval_date := some now, status := actionStatus a }
  match a with
  | .disburse => { l0 with disbursement_date := some now }
  | _ => l0

/-- Actions the admin UI offers for a loan, per the render guards in
`Account.tsx` (`loan.status === 'pending'` shows approve/reject,
`=== 'approved'` shows disburse, `=== 'active'` shows complete). -/
def availableActions : LoanStatus → List LoanAction
  | .pending => [.approve, .reject]
  | .approved => [.disburse]
  | .active => [.complete]
  | .rejected => []
  | .completed => []

/-- Modelled from the spec: the Loan status transition graph of §4.3
(`pending→approved`, `pending→rejected`, `approved→active`,
`active→completed`; `rejected` and `completed` terminal).  This definition
follows the spec's words; no transition check exists in the source. -/
def specValidTransition : LoanStatus → LoanStatus → Bool
  | .pending, .approved => true
  | .pending, .rejected => true
  | .approved, .active => true
  | .active, .completed => true
  | _, _ => false

/-- An `UPDATE loans SET status = newStatus WHERE id = loanId` issued by
`caller`, filtered by the `USING` clause of `loans_update_policy`
(`fix-infinite-recursion.sql`); the policy has no `WITH CHECK`, so the new
row is not inspected. -/
def updateLoanStatusRLS (s : Store) (caller : Nat) (loanId : Nat)
    (newStatus : LoanStatus) : Store :=
  { s with loans := s.loans.map (fun l =>
      if l.id == loanId && loans_update_policy s caller l then
        { l with status := newStatus }
      else l) }

/-- An `UPDATE profiles SET is_admin = TRUE WHERE id = caller` issued by the
caller through the generic profile-update path, filtered by the `USING`
clause of `profiles_update_policy` (`fix-infinite-recursion.sql`); the
policy has no `WITH CHECK` and no column-level restriction, so the written
`is_admin` value is not inspected. -/
def setOwnAdminTrue (s : Store) (caller : Nat) : Store :=
  { s with profiles := s.profiles.map (fun p =>
      if p.id == caller && profiles_update_policy s caller p then
        { p with is_admin := some true }
      else p) }

/-- An `INSERT` into `profiles`, gated by the `WITH CHECK` clause of
`profiles_insert_policy` (`fix-infinite-recursion.sql`); `none` models the
insert being rejected by the policy. -/
def insertProfileRLS (s : Store) (caller : Nat) (p : Profile) : Option Store :=
  if profiles_insert_policy s caller p then
    some { s with profiles := s.profiles ++ [p] }
  else none

/-- The row inserted by `createAdminProfile` in `Account.tsx`: the payload is
`{id, email, full_name, is_admin: true}`; the remaining columns take their
schema defaults (`credit_score` 0, `loan_limit` 0, timestamps NOW()). -/
def newAdminProfile (uid : Nat) (email : Option String) (fullName : String)
    (now : Nat) : Profile :=
  { id := uid, email := email, full_name := some fullName, phone := none,
    avatar_url := none, credit_score := 0, loan_limit := 0,
    is_admin := some true, created_at := now, updated_at := now }

/-- `createAdminProfile` from `Account.tsx`: inserts the caller's own profile
row with `is_admin: true`, through the profiles insert policy. -/
def createAdminProfile (s : Store) (uid : Nat) (email : Option String)
    (fullName : String) (now : Nat) : Option Store :=
  insertProfileRLS s uid (newAdminProfile uid email fullName now)

/-- `checkAdminAccess` from `Account.tsx`, run on mounting the admin
dashboard for any authenticated session: it selects the caller's own profile
row; on the `PGRST116` no-row error it calls `createAdminProfile`; when a row
exists it only alerts (no write). -/
def checkAdminAccess (s : Store) (uid : Nat) (email : Option String)
    (fullName : String) (now : Nat) : Option Store :=
  match lookupProfile s uid with
  | none => createAdminProfile s uid email fullName now
  | some _ => some s

/-- The profile row inserted by the provisioning statement of the simple
policy fix (`src/unnamed/part_008`, also in `fix-infinite-recursion.sql`):
payload `(id, email, full_name, is_admin) = (uid, auth.email(),
COALESCE(meta full_name, 'Admin User'), TRUE)`; other columns default. -/
def ensureProfileRow (uid : Nat) (email : Option String)
    (metaFullName : Option String) (now : Nat) : Profile :=
  { id := uid, email := email,
    full_name := some (metaFullName.getD "Admin User"), phone := none,
    avatar_url := none, credit_score := 0, loan_limit := 0,
    is_admin := some true, created_at := now, updated_at := now }

/-- `ensure_profile`, the provisioning statement `INSERT INTO profiles ...
SELECT ... WHERE NOT EXISTS (SELECT 1 FROM profiles WHERE id = auth.uid())
ON CONFLICT (id) DO UPDATE ...` (`src/unnamed/part_008` lines 18–31).  In a
sequential execution the `WHERE NOT EXISTS` guard empties the source set
whenever a row with the id already exists, so nothing is inserted and the
`ON CONFLICT` arm never fires; when no row exists the fresh row is
inserted. -/
def ensure_profile (s : Store) (uid : Nat) (email : Option String)
    (metaFullName : Option String) (now : Nat) : Store :=
  if s.profiles.any (fun p => p.id == uid) then s
  else { s with profiles := s.profiles ++ [ensureProfileRow uid email metaFullName now] }

/-- `saveProfile` from `Account.tsx`: a Supabase upsert on `profiles` whose
payload is exactly `{id := caller, full_name, phone, avatar_url,
updated_at}`.  On conflict with the existing `id` the listed columns are
updated and all other columns keep their stored values; with no existing row
a fresh row is inserted with schema defaults for the absent columns. -/
def saveProfileUpsert (s : Store) (uid : Nat)
    (fullName phone avatarUrl : Option String) (now : Nat) : Store :=
  if s.profiles.any (fun p => p.id == uid) then
    { s with profiles := s.profiles.map (fun p =>
        if p.id == uid then
          { p with full_name := fullName, phone := phone,
                   avatar_url := avatarUrl, updated_at := now }
        else p) }
  else
    { s with profiles := s.profiles ++
        [{ id := uid, email := none, full_name := fullName, phone := phone,
           avatar_url := avatarUrl, credit_score := 0, loan_limit := 0,
           is_admin := some false, created_at := now, updated_at := now }] }

/-- A non-admin account holder (identity 1). -/
def exProfile1 : Profile :=
  { id := 1, email := none, full_name := none, phone := none,
    avatar_url := none, credit_score := 700, loan_limit := 1000,
    is_admin := some false, created_at := 0, updated_at := 0 }

/-- An administrator (identity 2). -/
def exProfile2 : Profile :=
  { id := 2, email := none, full_name := none, phone := none,
    avatar_url := none, credit_score := 800, loan_limit := 5000,
    is_admin := some true, created_at := 0, updated_at := 0 }

/-- A profile whose nullable `is_admin` column is NULL (identity 3). -/
def exProfileNull : Profile :=
  { id := 3, email := none, full_name := none, phone := none,
    avatar_url := none, credit_score := 650, loan_limit := 0,
    is_admin := none, created_at := 0, updated_at := 0 }

/-- A pending loan owned by identity 1. -/
def exLoan : Loan :=
  { id := 10, user_id := 1, amount := 10000, interest_rate := 5,
    term_months := 3, monthly_payment := 3500, status := .pending,
    approval_date := none, disbursement_date := none }

/-- A payment row against `exLoan`. -/
def exPayment : Payment :=
  { id := 20, loan_id := 10, amount := 100 }

/-- A store holding the non-admin, the admin, and the pending loan. -/
def exStore : Store :=
  { profiles := [exProfile1, exProfile2], loans := [exLoan], payments := [] }

/-- `exStore` with the non-profile collections emptied; its profiles
collection is unchanged. -/
def exStoreNoLoans : Store :=
  { profiles := exStore.profiles, loans := [], payments := [] }

/-- A store whose only profile has a NULL `is_admin` column. -/
def exStoreNull : Store :=
  { profiles := [exProfileNull], loans := [], payments := [] }

/-- The empty store. -/
def emptyStore : Store :=
  { profiles := [], loans := [], payments := [] }

/-- C1 (amended): `profiles_select_policy` (fix-infinite-recursion.sql)
allows a select iff the row is the caller's own or the caller is admin,
whereas the later `profiles_select_all` (final-admin-fix.sql) and
`profiles_select_all_auth` (simple policy fix) allow every authenticated
caller to select every Profile row. -/
theorem profiles_select_layered_spec :
    (∀ s u p, profiles_select_policy s u p = true ↔
      (p.id = u ∨ is_admin_user s u = true)) ∧
    (∀ s u p, profiles_select_all s u p = true ∧
      profiles_select_all_auth s u p = true) := by
  constructor
  · intro s u p
    rw [profiles_select_policy, Bool.or_eq_true, beq_iff_eq]
    exact or_congr eq_comm Iff.rfl
  · intro s u p
    exact ⟨rfl, rfl⟩

/-- C1 witness: identity 1 may select its own profile row under
`profiles_select_policy`. -/
theorem profiles_select_layered_spec_witness :
    profiles_select_policy exStore 1 exProfile1 = true :=
  (profiles_select_layered_spec.1 exStore 1 exProfile1).mpr (Or.inl (by decide))

/-- C1 counterexample: under `profiles_select_all`, non-admin identity 1 is
allowed to select identity 2's profile row, so the claimed iff fails. -/
theorem profiles_select_all_breaks_owner_or_admin :
    ¬(profiles_select_all exStore 1 exProfile2 = true ↔
      (exProfile2.id = 1 ∨ is_admin_user exStore 1 = true)) := by
  decide

/-- C2: the admin-status resolver performs exactly one Profile store lookup
(the instrumented variant counts 1 on every input), and its result depends
only on that single lookup — any store with the same `lookupProfile` answer
yields the same admin status, so no policy predicate is consulted. -/
theorem is_admin_user_single_lookup :
    ∀ s u, is_admin_userCounted s u = (is_admin_user s u, 1) ∧
      (∀ t, lookupProfile t u = lookupProfile s u →
        is_admin_user t u = is_admin_user s u) := by
  intro s u
  constructor
  · cases h : lookupProfile s u <;>
      simp [is_admin_userCounted, is_admin_user, h]
  · intro t h
    unfold is_admin_user
    rw [h]

/-- C2 witness: on `exStore` the counted resolver returns one lookup, and
emptying the loan and payment collections leaves the admin status of
identity 1 unchanged. -/
theorem is_admin_user_single_lookup_witness :
    is_admin_userCounted exStore 1 = (false, 1) ∧
    is_admin_user exStoreNoLoans 1 = is_admin_user exStore 1 :=
  ⟨(is_admin_user_single_lookup exStore 1).1.trans (by decide),
   (is_admin_user_single_lookup exStore 1).2 exStoreNoLoans (by decide)⟩

/-- C3: a non-admin identity issuing `UPDATE profiles SET is_admin = TRUE`
on its own row passes `profiles_update_policy` (the row-level USING clause
checks only ownership, and there is no WITH CHECK or column restriction),
and afterwards the identity is admin — the code permits the self-promotion
the claim says must be denied. -/
theorem profiles_update_self_escalation :
    is_admin_user exStore 1 = false ∧
    profiles_update_policy exStore 1 exProfile1 = true ∧
    is_admin_user (setOwnAdminTrue exStore 1) 1 = true := by
  decide

/-- C4 (amended): the Loan update checks gate only on row ownership or admin
status — `loans_update_policy` allows iff owner-or-admin, `loans_update_own`
iff owner — with no condition tied to a status change, so a non-admin owner
can change a loan's status. -/
theorem loans_update_ownership_only :
    (∀ s u l, loans_update_policy s u l = true ↔
      (l.user_id = u ∨ is_admin_user s u = true)) ∧
    (∀ u l, loans_update_own u l = true ↔ l.user_id = u) := by
  constructor
  · intro s u l
    simp [loans_update_policy, Bool.or_eq_true, beq_iff_eq]
  · intro u l
    simp [loans_update_own, beq_iff_eq]

/-- C4 witness: the non-admin owner of `exLoan` passes the loan update
policy. -/
theorem loans_update_ownership_only_witness :
    loans_update_policy exStore 1 exLoan = true :=
  (loans_update_ownership_only.1 exStore 1 exLoan).mpr (Or.inl (by decide))

/-- C4 counterexample: non-admin identity 1 owns pending `exLoan`, and a
status-changing update it issues is applied — the loan's status becomes
`approved` although `is_admin_user` is false for the caller. -/
theorem loans_update_nonadmin_status_change :
    is_admin_user exStore 1 = false ∧
    exLoan.status = LoanStatus.pending ∧
    ((updateLoanStatusRLS exStore 1 10 LoanStatus.approved).loans.find?
        (fun l => l.id == 10)).map Loan.status = some LoanStatus.approved := by
  decide

/-- C5 (amended): every action the admin UI offers for a status follows the
spec's transition graph, but `handleLoanAction` itself applies the action's
target status unconditionally (no current-status check), and the schema
CHECK accepts every one of the five status values. -/
theorem loan_actions_follow_graph :
    (∀ st a, a ∈ availableActions st →
      specValidTransition st (actionStatus a) = true) ∧
    (∀ now a l, (handleLoanActionUpdate now a l).status = actionStatus a) ∧
    (∀ a, loans_status_check (statusText (actionStatus a)) = true) := by
  refine ⟨?_, ?_, ?_⟩
  · intro st a
    cases st <;> cases a <;> decide
  · intro now a l
    cases a <;> rfl
  · intro a
    cases a <;> decide

/-- C5 witness: `approve` is offered for a pending loan and moves it along a
graph edge. -/
theorem loan_actions_follow_graph_witness :
    specValidTransition LoanStatus.pending
      (actionStatus LoanAction.approve) = true :=
  loan_actions_follow_graph.1 LoanStatus.pending LoanAction.approve (by decide)

/-- C5 counterexample: applying the `complete` action to the pending
`exLoan` sets its status straight to `completed`, the schema CHECK accepts
the value, and no invalid-state rejection occurs — although
`pending → completed` is outside the spec's transition graph. -/
theorem pending_to_completed_applied :
    exLoan.status = LoanStatus.pending ∧
    specValidTransition LoanStatus.pending LoanStatus.completed = false ∧
    (handleLoanActionUpdate 0 LoanAction.complete exLoan).status
      = LoanStatus.completed ∧
    loans_status_check (statusText LoanStatus.completed) = true := by
  decide

/-- C6: when the authenticated caller has no Profile row, mounting the admin
dashboard runs `checkAdminAccess`, which calls `createAdminProfile`; the
insert with `is_admin: true` passes the profiles insert policy and leaves
the caller an admin — the bootstrap is reachable from ordinary request
handling. -/
theorem checkAdminAccess_self_admin_bootstrap :
    lookupProfile emptyStore 7 = none ∧
    (checkAdminAccess emptyStore 7 none "Admin User" 0).map
      (fun t => is_admin_user t 7) = some true := by
  decide

/-- C7 (amended): `payments_insert_policy` (fix-infinite-recursion.sql)
allows a Payment insert iff the caller is admin, whereas the later
`payments_insert_all` (final-admin-fix.sql) and `payments_insert_admin`
(simple policy fix) allow every authenticated caller to insert. -/
theorem payments_insert_layered_spec :
    (∀ s u r, payments_insert_policy s u r = true ↔
      is_admin_user s u = true) ∧
    (∀ s u r, payments_insert_all s u r = true ∧
      payments_insert_admin s u r = true) :=
  ⟨fun _ _ _ => Iff.rfl, fun _ _ _ => ⟨rfl, rfl⟩⟩

/-- C7 witness: admin identity 2 passes `payments_insert_policy`. -/
theorem payments_insert_layered_spec_witness :
    payments_insert_policy exStore 2 exPayment = true :=
  (payments_insert_layered_spec.1 exStore 2 exPayment).mpr (by decide)

/-- C7 counterexample: under `payments_insert_all`, non-admin identity 1
(owner of the referenced loan) is allowed to insert a Payment row, so the
claimed iff fails. -/
theorem payments_insert_all_breaks_admin_only :
    ¬(payments_insert_all exStore 1 exPayment = true ↔
      is_admin_user exStore 1 = true) := by
  decide

/-- C8: `ensure_profile` is idempotent — given the primary-key invariant (at
most one stored row per id), a second call with the same arguments is a
no-op, and after the first call exactly one Profile row with the id
exists. -/
theorem ensure_profile_idempotent :
    ∀ s uid email meta now,
      List.countP (fun p => p.id == uid) s.profiles ≤ 1 →
      ensure_profile (ensure_profile s uid email meta now) uid email meta now
        = ensure_profile s uid email meta now ∧
      List.countP (fun p => p.id == uid)
        (ensure_profile s uid email meta now).profiles = 1 := by
  intro s uid email meta now hpk
  by_cases h : s.profiles.any (fun p => p.id == uid) = true
  · have h1 : ensure_profile s uid email meta now = s := by
      simp [ensure_profile, h]
    have hpos : 0 < List.countP (fun p => p.id == uid) s.profiles := by
      obtain ⟨x, hx, hpx⟩ := List.any_eq_true.mp h
      exact List.countP_pos_iff.mpr ⟨x, hx, hpx⟩
    rw [h1]
    exact ⟨h1, by omega⟩
  · have h0 : List.countP (fun p => p.id == uid) s.profiles = 0 := by
      rw [List.countP_eq_zero]
      intro a ha hpa
      exact h (List.any_eq_true.mpr ⟨a, ha, hpa⟩)
    have h1 : ensure_profile s uid email meta now =
        { s with profiles :=
            s.profiles ++ [ensureProfileRow uid email meta now] } := by
      simp [ensure_profile, h]
    have h2 : (s.profiles ++ [ensureProfileRow uid email meta now]).any
        (fun p => p.id == uid) = true := by
      simp [List.any_append, ensureProfileRow]
    constructor
    · rw [h1]
      simp [ensure_profile, h2]
    · rw [h1]
      simp [List.countP_append, h0, ensureProfileRow]

/-- C8 witness: provisioning identity 5 twice on the empty store equals
provisioning once, and leaves exactly one row for identity 5. -/
theorem ensure_profile_idempotent_witness :
    ensure_profile (ensure_profile emptyStore 5 none none 0) 5 none none 0
      = ensure_profile emptyStore 5 none none 0 ∧
    List.countP (fun p => p.id == 5)
      (ensure_profile emptyStore 5 none none 0).profiles = 1 :=
  ensure_profile_idempotent emptyStore 5 none none 0 (by decide)

/-- C9: the admin-status resolver returns false (it is a total function, so
it never errors) both when no Profile row exists for the identity and when
the stored row's `is_admin` column is NULL. -/
theorem is_admin_user_null_safe :
    ∀ s u, (lookupProfile s u = none → is_admin_user s u = false) ∧
      (∀ p, lookupProfile s u = some p → p.is_admin = none →
        is_admin_user s u = false) := by
  intro s u
  constructor
  · intro h
    simp [is_admin_user, h]
  · intro p h hnull
    simp [is_admin_user, h, hnull]

/-- C9 witness: identity 4 has no row in `exStoreNull` and resolves to
false; identity 3's row has a NULL `is_admin` and also resolves to false. -/
theorem is_admin_user_null_safe_witness :
    is_admin_user exStoreNull 4 = false ∧
    is_admin_user exStoreNull 3 = false :=
  ⟨(is_admin_user_null_safe exStoreNull 4).1 (by decide),
   (is_admin_user_null_safe exStoreNull 3).2 exProfileNull (by decide) (by decide)⟩

/-- C10: `saveProfile`'s upsert leaves the loan and payment collections
untouched, preserves every Profile row of another identity (in both
directions), and rewrites the caller's own row to the record that changes
only `full_name`, `phone`, `avatar_url` and `updated_at`, keeping
`is_admin`, `credit_score`, `loan_limit` and `email` at their stored
values. -/
theorem saveProfile_frame :
    ∀ s uid fn ph av now,
      (saveProfileUpsert s uid fn ph av now).loans = s.loans ∧
      (saveProfileUpsert s uid fn ph av now).payments = s.payments ∧
      (∀ p, p ∈ s.profiles → p.id ≠ uid →
        p ∈ (saveProfileUpsert s uid fn ph av now).profiles) ∧
      (∀ q, q ∈ (saveProfileUpsert s uid fn ph av now).profiles →
        q.id ≠ uid → q ∈ s.profiles) ∧
      (∀ p, p ∈ s.profiles → p.id = uid →
        { p with full_name := fn, phone := ph, avatar_url := av,
                 updated_at := now }
          ∈ (saveProfileUpsert s uid fn ph av now).profiles) := by
  intro s uid fn ph av now
  by_cases h : s.profiles.any (fun p => p.id == uid) = true
  · refine ⟨by simp [saveProfileUpsert, h], by simp [saveProfileUpsert, h],
      ?_, ?_, ?_⟩
    · intro p hp hne
      have hne' : (p.id == uid) = false := by
        simp [beq_eq_false_iff_ne, hne]
      simp only [saveProfileUpsert, h, if_true]
      exact List.mem_map.mpr ⟨p, hp, by simp [hne']⟩
    · intro q hq hne
      simp only [saveProfileUpsert, h, if_true] at hq
      obtain ⟨p, hp, hfp⟩ := List.mem_map.mp hq
      by_cases hid : p.id = uid
      · exfalso
        apply hne
        rw [← hfp]
        simp [hid]
      · rw [← hfp]
        simp [hid]
        exact hp
    · intro p hp hid
      have hid' : (p.id == uid) = true := by simp [beq_iff_eq, hid]
      simp only [saveProfileUpsert, h, if_true]
      exact List.mem_map.mpr ⟨p, hp, by simp [hid']⟩
  · refine ⟨by simp [saveProfileUpsert, h], by simp [saveProfileUpsert, h],
      ?_, ?_, ?_⟩
    · intro p hp _
      simp only [saveProfileUpsert, h, if_false]
      exact List.mem_append_left _ hp
    · intro q hq hne
      simp only [saveProfileUpsert, h, if_false] at hq
      rcases List.mem_append.mp hq with hq | hq
      · exact hq
      · exfalso
        apply hne
        simp only [List.mem_singleton] at hq
        rw [hq]
    · intro p hp hid
      exfalso
      apply h
      exact List.any_eq_true.mpr ⟨p, hp, by simp [beq_iff_eq, hid]⟩

/-- C10 witness: after identity 1 saves its profile, identity 2's row is
still present and the loan collection is unchanged. -/
theorem saveProfile_frame_witness :
    exProfile2 ∈ (saveProfileUpsert exStore 1 (some "N") none none 5).profiles ∧
    (saveProfileUpsert exStore 1 (some "N") none none 5).loans
      = exStore.loans :=
  ⟨(saveProfile_frame exStore 1 (some "N") none none 5).2.2.1 exProfile2
      (by decide) (by decide),
   (saveProfile_frame exStore 1 (some "N") none none 5).1⟩
